import Mathlib

/-!
Shallow embedding of the `fileupload` Django application
(`fileupload/middleware.py`, `fileupload/azure_storage.py`,
`fileupload/views.py`) and proofs about its request-gating,
object-naming and listing logic.

External effects of the source (the Azure SDK calls, `uuid.uuid4()`,
`datetime.utcnow()`, Django request plumbing) are modelled as explicit
parameters: each handler takes the nondeterministically produced values
(timestamp, unique id, blob url, upload time) and the outcome of the
backend call (`Except PyExc _`) as inputs, and is otherwise a pure
function of the request data.
-/

namespace FileUpload

/-- Python truthiness of an optional string: `None` and `''` are falsy,
every other string is truthy.  Used to embed `if user_id:` and
`if not self.account_name:`. -/
def pyTruthy : Option String → Bool
  | none => false
  | some s => s != ""

/-- Embedding of Python `s.startswith(p)` (also of Lean-side
`str.startswith` checks in the middleware): `p` is a prefix of `s`.
Defined over the character list so it is kernel-executable. -/
def str_startswith (s p : String) : Bool := p.data.isPrefixOf s.data

/-- Embedding of Python `c in s` for a single character `c`
(used for `'.' in original_filename`). -/
def str_contains (s : String) (c : Char) : Bool := s.data.contains c

/-- Python exceptions relevant to this code base: `ValueError` (raised by
the storage-service constructor on missing configuration) and plain
`Exception` (everything else).  The views dispatch on this distinction
with `except ValueError` before `except Exception`. -/
inductive PyExc where
  | valueError (msg : String)
  | exception (msg : String)
deriving DecidableEq

/-- Python `str(e)`: the message carried by the exception. -/
def PyExc.message : PyExc → String
  | .valueError m => m
  | .exception m => m

/-! ## Token gate (`middleware.py`, `MSALAuthMiddleware`) -/

/-- The `request.user_info` dictionary set by the middleware:
`{'user_id': ..., 'email': ..., 'name': ...}`. -/
structure UserInfo where
  user_id : String
  email : String
  name : String
deriving DecidableEq

/-- The decoded token claims consumed by the middleware
(`unverified_claims.get('oid'/'preferred_username'/'name', '')`).
`none` models an absent claim. -/
structure Claims where
  oid : Option String
  preferred_username : Option String
  name : Option String
deriving DecidableEq

/-- Outcome of `jwt.decode(token, options={"verify_signature": False})`:
success with claims, `jwt.ExpiredSignatureError`, `jwt.InvalidTokenError`
(with its message) or any other exception (with its message). -/
inductive DecodeResult where
  | ok (claims : Claims)
  | expiredSignature
  | invalidToken (msg : String)
  | otherError (msg : String)
deriving DecidableEq

/-- `MSALAuthMiddleware.PUBLIC_PATHS`. -/
def PUBLIC_PATHS : List String := ["/admin/", "/api/health/"]

/-- A middleware rejection: `JsonResponse({'error': ..., 'message': ...},
status=...)` returned without calling `get_response`. -/
structure Rejection where
  status : Nat
  error : String
  message : String
deriving DecidableEq

/-- The request data the middleware looks at: `request.path` and
`request.META.get('HTTP_AUTHORIZATION')` (`none` models an absent
header). -/
structure Request where
  path : String
  authorization : Option String
deriving DecidableEq

/-- The identity record the middleware stores in `request.user_info`
from the decoded claims; a missing claim defaults to `''`. -/
def user_info_of_claims (c : Claims) : UserInfo :=
  ⟨c.oid.getD "", c.preferred_username.getD "", c.name.getD ""⟩

/-- Embedding of `auth_header.split('Bearer ')[1]`: the segment between
the first and second occurrence of `'Bearer '` (the whole remainder
when there is no second occurrence).  Only reached when the header
starts with `Bearer `, so index 1 exists. -/
def bearer_token (auth_header : String) : String :=
  (auth_header.splitOn "Bearer ").getD 1 ""

/-- Embedding of `MSALAuthMiddleware.__call__` up to the point where the
downstream handler would run: either the request is rejected with a
`JsonResponse` (`Except.error`), or it passes through, carrying the
optional `request.user_info` the handler will see (`none` on the
public-path branch, which attaches nothing). The unverified decode
itself is an external collaborator, passed in as `decode`. -/
def gate (req : Request) (decode : String → DecodeResult) :
    Except Rejection (Option UserInfo) :=
  if PUBLIC_PATHS.any (fun p => str_startswith req.path p) then
    .ok none
  else
    let auth_header := req.authorization.getD ""
    if str_startswith auth_header "Bearer " then
      match decode (bearer_token auth_header) with
      | .ok claims => .ok (some (user_info_of_claims claims))
      | .expiredSignature =>
          .error ⟨401, "Token expired", "Your authentication token has expired"⟩
      | .invalidToken m => .error ⟨401, "Invalid token", m⟩
      | .otherError m => .error ⟨401, "Authentication failed", m⟩
    else
      .error ⟨401, "Missing or invalid Authorization header",
                   "Please provide a valid Bearer token"⟩

/-- The full middleware call: on a rejection the handler
(`self.get_response`) is never invoked; otherwise the handler runs on
the request with the attached `user_info`. -/
def middleware_call {α : Type} (req : Request) (decode : String → DecodeResult)
    (handler : Option UserInfo → α) : Except Rejection α :=
  match gate req decode with
  | .error r => .error r
  | .ok ui => .ok (handler ui)

/-! ## Object store gateway (`azure_storage.py`, `AzureBlobStorageService`) -/

/-- Embedding of
`original_filename.split('.')[-1] if '.' in original_filename else ''`:
the substring after the last `'.'` of the filename, and `''` when the
filename contains no `'.'`.  (The last element of a Python
`split('.')` is exactly the maximal dot-free suffix, here computed as
the reversed dot-free prefix of the reversed character list.) -/
def file_extension (filename : String) : String :=
  if str_contains filename '.' then
    String.mk ((filename.data.reverse.takeWhile (fun c => c != '.')).reverse)
  else ""

/-- Embedding of the blob-key construction in
`AzureBlobStorageService.upload_file` (lines 56-66):
`f"{user_id}/{timestamp}_{unique_id}.{file_extension}"` when `user_id`
is truthy, else `f"{timestamp}_{unique_id}.{file_extension}"`. -/
def blob_name (user_id : Option String) (timestamp unique_id : String)
    (original_filename : String) : String :=
  if pyTruthy user_id then
    user_id.getD "" ++ "/" ++ timestamp ++ "_" ++ unique_id ++ "." ++
      file_extension original_filename
  else
    timestamp ++ "_" ++ unique_id ++ "." ++ file_extension original_filename

/-- The uploaded file object (`request.FILES['file']`): the attributes
the source reads (`name`, `size`, `content_type`). -/
structure UploadedFile where
  name : String
  size : Nat
  content_type : String
deriving DecidableEq

/-- The dictionary returned by a successful
`AzureBlobStorageService.upload_file`. -/
structure UploadResult where
  success : Bool
  blob_name : String
  blob_url : String
  original_filename : String
  size : Nat
  content_type : String
  uploaded_at : String
deriving DecidableEq

/-- Embedding of `AzureBlobStorageService.upload_file`.  The timestamp,
unique id, blob url and upload time are produced by external
collaborators and passed in; `backend` is the outcome of the
`blob_client.upload_blob` call (and of the client plumbing around it).
Any exception in the body is wrapped into a plain `Exception` whose
message prefixes `str(e)` with
`"Failed to upload file to Azure Blob Storage: "`. -/
def upload_file (file : UploadedFile) (filename : Option String)
    (user_id : Option String) (timestamp unique_id blob_url uploaded_at : String)
    (backend : Except PyExc Unit) : Except PyExc UploadResult :=
  let original_filename := filename.getD file.name
  match backend with
  | .error e =>
      .error (.exception ("Failed to upload file to Azure Blob Storage: " ++ e.message))
  | .ok _ =>
      .ok ⟨true, blob_name user_id timestamp unique_id original_filename,
            blob_url, original_filename, file.size, file.content_type, uploaded_at⟩

/-- A blob as enumerated by `container_client.list_blobs()`: the
attributes the source reads.  `content_type` is
`blob.content_settings.content_type if blob.content_settings else None`,
modelled directly as the optional resulting value; the two timestamp
fields are the already-ISO-formatted optional strings. -/
structure Blob where
  name : String
  size : Nat
  creation_time : Option String
  last_modified : Option String
  content_type : Option String
deriving DecidableEq

/-- One element of the list returned by
`AzureBlobStorageService.list_blobs`. -/
structure BlobEntry where
  name : String
  size : Nat
  created_on : Option String
  last_modified : Option String
  content_type : Option String
deriving DecidableEq

/-- The dictionary appended for one blob in `list_blobs`. -/
def blob_entry (b : Blob) : BlobEntry :=
  ⟨b.name, b.size, b.creation_time, b.last_modified, b.content_type⟩

/-- Embedding of the enumeration loop of
`AzureBlobStorageService.list_blobs` (lines 109-125) over the
backend-reported blob list: skip a blob when `user_id` is truthy and
the blob name does not start with `f"{user_id}/"`, otherwise append its
metadata dictionary, preserving enumeration order. -/
def list_blobs (user_id : Option String) : List Blob → List BlobEntry
  | [] => []
  | b :: rest =>
    if pyTruthy user_id && !(str_startswith b.name (user_id.getD "" ++ "/")) then
      list_blobs user_id rest
    else
      blob_entry b :: list_blobs user_id rest

/-- Embedding of `AzureBlobStorageService.list_blobs` including its
`except Exception` wrapper: `backend` is the outcome of obtaining the
container client and enumerating the blobs; any exception is re-raised
as a plain `Exception` with message prefix `"Failed to list blobs: "`. -/
def list_blobs_call (user_id : Option String)
    (backend : Except PyExc (List Blob)) : Except PyExc (List BlobEntry) :=
  match backend with
  | .error e => .error (.exception ("Failed to list blobs: " ++ e.message))
  | .ok bl => .ok (list_blobs user_id bl)

/-- Embedding of `AzureBlobStorageService.__init__` as far as the views
observe it: `raise ValueError(...)` when the configured
`AZURE_STORAGE_ACCOUNT_NAME` is falsy (absent or empty), otherwise
success. -/
def service_init (account_name : Option String) : Except PyExc Unit :=
  if pyTruthy account_name then .ok ()
  else .error (.valueError "AZURE_STORAGE_ACCOUNT_NAME must be configured")

/-! ## Request handlers (`views.py`) -/

/-- The JSON responses the three views can produce, tagged by shape:
an error body `{'error', 'message'}`, a successful upload body
`{'message', 'data'}`, a successful listing body
`{'message', 'count', 'data'}`, or the health body
`{'status', 'message'}`. -/
inductive ApiResponse where
  | errorResponse (status : Nat) (error : String) (message : String)
  | uploadOk (status : Nat) (message : String) (data : UploadResult)
  | listOk (status : Nat) (message : String) (count : Nat) (data : List BlobEntry)
  | healthOk (status : Nat) (statusLiteral : String) (message : String)
deriving DecidableEq

/-- The HTTP status code of a response. -/
def ApiResponse.statusCode : ApiResponse → Nat
  | .errorResponse s _ _ => s
  | .uploadOk s _ _ => s
  | .listOk s _ _ _ => s
  | .healthOk s _ _ => s

/-- Embedding of
`getattr(request, 'user_info', {}).get('user_id', 'anonymous')`:
`'anonymous'` when the middleware attached no `user_info`, else the
attached `user_id` (always present in the middleware's dictionary). -/
def request_user_id (user_info : Option UserInfo) : String :=
  match user_info with
  | none => "anonymous"
  | some ui => ui.user_id

/-- Exception dispatch of `FileUploadView.post`: `except ValueError`
gives 500 `Configuration error`, `except Exception` gives 500
`Upload failed`, each with `str(e)` as the message. -/
def upload_exc_response : PyExc → ApiResponse
  | .valueError m => .errorResponse 500 "Configuration error" m
  | .exception m => .errorResponse 500 "Upload failed" m

/-- Exception dispatch of `FileListView.get`: `except ValueError`
gives 500 `Configuration error`, `except Exception` gives 500
`Failed to retrieve files`. -/
def list_exc_response : PyExc → ApiResponse
  | .valueError m => .errorResponse 500 "Configuration error" m
  | .exception m => .errorResponse 500 "Failed to retrieve files" m

/-- The maximum upload size of `FileUploadView.post`:
`max_size = 50 * 1024 * 1024`. -/
def max_size : Nat := 50 * 1024 * 1024

/-- Embedding of `FileUploadView.post`.  `file` is the optional
`request.FILES['file']`; `user_info` the optional attribute set by the
middleware; `account_name` the configured storage account;
`timestamp`, `unique_id`, `blob_url`, `uploaded_at` the external
nondeterministic values; `backend` the outcome of the blob upload.
The Python float `max_size / (1024*1024)` renders as `50.0` in the
oversize message. -/
def fileUploadView_post (file : Option UploadedFile) (user_info : Option UserInfo)
    (account_name : Option String)
    (timestamp unique_id blob_url uploaded_at : String)
    (backend : Except PyExc Unit) : ApiResponse :=
  match file with
  | none =>
      .errorResponse 400 "No file provided"
        "Please include a file in the request with key \"file\""
  | some f =>
    if f.size > max_size then
      .errorResponse 400 "File too large"
        "File size exceeds maximum allowed size of 50.0MB"
    else
      let user_id := request_user_id user_info
      match service_init account_name with
      | .error e => upload_exc_response e
      | .ok _ =>
        match upload_file f none (some user_id) timestamp unique_id blob_url
            uploaded_at backend with
        | .error e => upload_exc_response e
        | .ok result => .uploadOk 201 "File uploaded successfully" result

/-- Embedding of `FileListView.get`:  `backend` is the outcome of the
container enumeration inside `list_blobs`. -/
def fileListView_get (user_info : Option UserInfo) (account_name : Option String)
    (backend : Except PyExc (List Blob)) : ApiResponse :=
  let user_id := request_user_id user_info
  match service_init account_name with
  | .error e => list_exc_response e
  | .ok _ =>
    match list_blobs_call (some user_id) backend with
    | .error e => list_exc_response e
    | .ok blobs => .listOk 200 "Files retrieved successfully" blobs.length blobs

/-- Embedding of `HealthCheckView.get`: an unconditional 200 with the
fixed body; it takes no backend input at all. -/
def healthCheckView_get : ApiResponse :=
  .healthOk 200 "healthy" "File upload service is running"

/-! ## Helper lemmas -/

theorem str_contains_iff (s : String) (c : Char) :
    str_contains s c = true ↔ c ∈ s.data := by
  simp [str_contains, List.contains, List.elem_eq_mem]

theorem not_mem_of_str_contains_false {s : String} {c : Char}
    (h : str_contains s c = false) : c ∉ s.data := by
  intro hmem
  rw [(str_contains_iff s c).mpr hmem] at h
  cases h

theorem takeWhile_no_dot (xs ys : List Char) (hx : ∀ c ∈ xs, (c != '.') = true) :
    (xs ++ '.' :: ys).takeWhile (fun c => c != '.') = xs := by
  induction xs with
  | nil => simp
  | cons x xs' ih =>
    have h1 : (x != '.') = true := hx x (by simp)
    rw [List.cons_append, List.takeWhile_cons, if_pos h1,
      ih (fun c hc => hx c (by simp [hc]))]

theorem file_extension_no_dot_mem (f : String) :
    ∀ c ∈ (file_extension f).data, c ≠ '.' := by
  intro c hc
  unfold file_extension at hc
  cases h : str_contains f '.' with
  | false => simp [h] at hc
  | true =>
    simp [h] at hc
    have h2 := List.mem_takeWhile_imp hc
    simpa using h2

theorem file_extension_of_no_dot (f : String) (h : str_contains f '.' = false) :
    file_extension f = "" := by
  simp [file_extension, h]

theorem file_extension_suffix (a e : String) (he : str_contains e '.' = false) :
    file_extension (a ++ "." ++ e) = e := by
  have hd : (a ++ "." ++ e).data = a.data ++ '.' :: e.data := by
    simp [String.data_append]
  have hcon : str_contains (a ++ "." ++ e) '.' = true := by
    refine (str_contains_iff _ _).mpr ?_
    rw [hd]; simp
  have hdotfree : ∀ c ∈ e.data.reverse, (c != '.') = true := by
    intro c hc
    have hmem : c ∈ e.data := List.mem_reverse.mp hc
    have hne : c ≠ '.' := fun hceq => not_mem_of_str_contains_false he (hceq ▸ hmem)
    exact bne_iff_ne.mpr hne
  have hrev : (a ++ "." ++ e).data.reverse = e.data.reverse ++ '.' :: a.data.reverse := by
    rw [hd]; simp
  rw [file_extension, if_pos hcon, hrev, takeWhile_no_dot _ _ hdotfree,
    List.reverse_reverse]

theorem no_dot_append_inj {xs ys as bs : List Char}
    (hx : ∀ c ∈ xs, c ≠ '.') (hy : ∀ c ∈ ys, c ≠ '.')
    (h : xs ++ '.' :: as = ys ++ '.' :: bs) : xs = ys ∧ as = bs := by
  induction xs generalizing ys with
  | nil =>
    cases ys with
    | nil => simpa using h
    | cons y ys' =>
      simp at h
      exact absurd h.1.symm (hy y (by simp))
  | cons x xs' ih =>
    cases ys with
    | nil =>
      simp at h
      exact absurd h.1 (hx x (by simp))
    | cons y ys' =>
      simp at h
      obtain ⟨h1, h2⟩ := h
      obtain ⟨h3, h4⟩ := ih (fun c hc => hx c (by simp [hc]))
        (fun c hc => hy c (by simp [hc])) h2
      exact ⟨by rw [h1, h3], h4⟩

theorem key_shape_uuid_eq {A1 A2 U1 U2 E1 E2 : List Char}
    (hU : U1.length = U2.length)
    (hE1 : ∀ c ∈ E1, c ≠ '.') (hE2 : ∀ c ∈ E2, c ≠ '.')
    (h : A1 ++ U1 ++ '.' :: E1 = A2 ++ U2 ++ '.' :: E2) : U1 = U2 := by
  have hrev : E1.reverse ++ '.' :: (U1.reverse ++ A1.reverse) =
      E2.reverse ++ '.' :: (U2.reverse ++ A2.reverse) := by
    simpa [List.reverse_append, List.append_assoc] using congrArg List.reverse h
  have hE1r : ∀ c ∈ E1.reverse, c ≠ '.' := fun c hc => hE1 c (List.mem_reverse.mp hc)
  have hE2r : ∀ c ∈ E2.reverse, c ≠ '.' := fun c hc => hE2 c (List.mem_reverse.mp hc)
  obtain ⟨-, hUA⟩ := no_dot_append_inj hE1r hE2r hrev
  have hlen : U1.reverse.length = U2.reverse.length := by simpa using hU
  have := (List.append_inj hUA hlen).1
  exact List.reverse_injective this

theorem blob_name_data_shape (uid : Option String) (t u f : String) :
    ∃ A : List Char, (blob_name uid t u f).data =
      A ++ u.data ++ '.' :: (file_extension f).data := by
  have hdot : ("." : String).data = ['.'] := rfl
  cases h : pyTruthy uid with
  | true =>
    exact ⟨(uid.getD "" ++ "/" ++ t ++ "_").data,
      by simp [blob_name, h, String.data_append, hdot, List.append_assoc]⟩
  | false =>
    exact ⟨(t ++ "_").data,
      by simp [blob_name, h, String.data_append, hdot, List.append_assoc]⟩

/-! ## Claim theorems -/

/-- C1: the generated object key is `o ++ "/" ++ t ++ "_" ++ u ++ "." ++ ext`
when a (truthy) owner id `o` is given and `t ++ "_" ++ u ++ "." ++ ext`
otherwise, where `ext = file_extension f` is the substring of the
declared filename `f` after the last `'.'` (conjunct 3) and the empty
string when `f` contains no `'.'`, in which case the key ends in a
trailing `'.'` (conjunct 4); conjunct 5 ties the key to the value a
successful `upload_file` call returns. -/
theorem upload_key_construction (t u f : String) :
    (∀ o : String, o ≠ "" →
        blob_name (some o) t u f = o ++ "/" ++ t ++ "_" ++ u ++ "." ++ file_extension f)
    ∧ blob_name none t u f = t ++ "_" ++ u ++ "." ++ file_extension f
    ∧ (∀ a e : String, f = a ++ "." ++ e → str_contains e '.' = false →
        file_extension f = e)
    ∧ (str_contains f '.' = false →
        file_extension f = "" ∧ blob_name none t u f = t ++ "_" ++ u ++ ".")
    ∧ (∀ (fl : UploadedFile) (burl uat : String) (uid : Option String),
        upload_file fl none uid t u burl uat (.ok ()) =
          .ok ⟨true, blob_name uid t u fl.name, burl, fl.name, fl.size,
                fl.content_type, uat⟩) := by
  refine ⟨?_, ?_, ?_, ?_, ?_⟩
  · intro o ho
    simp [blob_name, pyTruthy, bne_iff_ne.mpr ho]
  · simp [blob_name, pyTruthy]
  · intro a e hf he
    subst hf
    exact file_extension_suffix a e he
  · intro h
    refine ⟨file_extension_of_no_dot f h, ?_⟩
    simp [blob_name, pyTruthy, file_extension_of_no_dot f h, String.append_empty]
  · intro fl burl uat uid
    rfl

/-- Witness for C1 at concrete inputs. -/
theorem upload_key_construction_witness :
    blob_name (some "user-1") "20240101_120000" "id-1" "report.pdf" =
      "user-1/20240101_120000_id-1.pdf"
    ∧ file_extension "report.pdf" = "pdf"
    ∧ blob_name none "20240101_120000" "id-1" "README" = "20240101_120000_id-1." := by
  have h := upload_key_construction "20240101_120000" "id-1" "report.pdf"
  have h2 := upload_key_construction "20240101_120000" "id-1" "README"
  refine ⟨?_, ?_, ?_⟩
  · rw [h.1 "user-1" (by decide)]
    decide
  · exact h.2.2.1 "report" "pdf" (by decide) (by decide)
  · exact (h2.2.2.2.1 (by decide)).2

/-- C8: two upload calls with distinct generated unique identifiers of
equal length (every `str(uuid.uuid4())` has length 36) produce distinct
object keys, whatever the owner ids, timestamps and filenames are. -/
theorem upload_keys_distinct (o1 o2 : Option String) (t1 t2 u1 u2 f1 f2 : String)
    (hlen : u1.length = u2.length) (hne : u1 ≠ u2) :
    blob_name o1 t1 u1 f1 ≠ blob_name o2 t2 u2 f2 := by
  intro heq
  obtain ⟨A1, h1⟩ := blob_name_data_shape o1 t1 u1 f1
  obtain ⟨A2, h2⟩ := blob_name_data_shape o2 t2 u2 f2
  have hdata : (blob_name o1 t1 u1 f1).data = (blob_name o2 t2 u2 f2).data :=
    congrArg String.data heq
  rw [h1, h2] at hdata
  have hu : u1.data = u2.data :=
    key_shape_uuid_eq hlen (file_extension_no_dot_mem f1) (file_extension_no_dot_mem f2)
      hdata
  exact hne (String.ext hu)

/-- Witness for C8: identically-named files, same owner, same timestamp,
distinct ids. -/
theorem upload_keys_distinct_witness :
    blob_name (some "alice") "20240101_120000" "aaaa-1111" "notes.txt" ≠
      blob_name (some "alice") "20240101_120000" "aaaa-2222" "notes.txt" :=
  upload_keys_distinct (some "alice") (some "alice") "20240101_120000"
    "20240101_120000" "aaaa-1111" "aaaa-2222" "notes.txt" "notes.txt"
    (by decide) (by decide)

/-- C4: on a gated path (no public-path allow-list entry is a prefix of
the request path), a request whose Authorization header is absent or
does not start with `Bearer ` is rejected with status 401 and error
`Missing or invalid Authorization header`, and the downstream handler
is never invoked: the middleware result is that rejection for every
handler and every decode behaviour. -/
theorem missing_auth_header_rejected (req : Request)
    (hgated : PUBLIC_PATHS.any (fun p => str_startswith req.path p) = false)
    (hauth : req.authorization = none ∨
      str_startswith (req.authorization.getD "") "Bearer " = false) :
    ∀ {α : Type} (decode : String → DecodeResult) (handler : Option UserInfo → α),
      middleware_call req decode handler =
        .error ⟨401, "Missing or invalid Authorization header",
                     "Please provide a valid Bearer token"⟩ := by
  intro α decode handler
  have hb : str_startswith (req.authorization.getD "") "Bearer " = false := by
    cases hauth with
    | inl h => rw [h]; decide
    | inr h => exact h
  simp [middleware_call, gate, hgated, hb]

/-- Witness for C4: an absent header and a malformed one, on a gated
path. -/
theorem missing_auth_header_rejected_witness :
    middleware_call ⟨"/api/upload/", none⟩ (fun _ => DecodeResult.otherError "x")
        (fun _ => (0 : Nat)) =
      .error ⟨401, "Missing or invalid Authorization header",
                   "Please provide a valid Bearer token"⟩
    ∧ middleware_call ⟨"/api/files/", some "Basic abc"⟩
        (fun _ => DecodeResult.otherError "x") (fun _ => (0 : Nat)) =
      .error ⟨401, "Missing or invalid Authorization header",
                   "Please provide a valid Bearer token"⟩ :=
  ⟨missing_auth_header_rejected ⟨"/api/upload/", none⟩ (by decide) (Or.inl rfl) _ _,
   missing_auth_header_rejected ⟨"/api/files/", some "Basic abc"⟩ (by decide)
     (Or.inr (by decide)) _ _⟩

/-- C5: on a gated path with a well-formed Bearer header, a failing token
decode is rejected with 401 and classified: expiry gives error
`Token expired`, an invalid/malformed token gives error `Invalid token`
(carrying the exception message), any other decode exception gives
error `Authentication failed`; in each case the middleware result is
the rejection, so the downstream handler is never invoked. -/
theorem token_failure_taxonomy {α : Type} (req : Request)
    (hgated : PUBLIC_PATHS.any (fun p => str_startswith req.path p) = false)
    (hb : str_startswith (req.authorization.getD "") "Bearer " = true)
    (decode : String → DecodeResult) (handler : Option UserInfo → α) :
    (decode (bearer_token (req.authorization.getD "")) =
        .expiredSignature →
      middleware_call req decode handler =
        .error ⟨401, "Token expired", "Your authentication token has expired"⟩)
    ∧ (∀ m, decode (bearer_token (req.authorization.getD "")) =
        .invalidToken m →
      middleware_call req decode handler = .error ⟨401, "Invalid token", m⟩)
    ∧ (∀ m, decode (bearer_token (req.authorization.getD "")) =
        .otherError m →
      middleware_call req decode handler =
        .error ⟨401, "Authentication failed", m⟩) := by
  refine ⟨?_, ?_, ?_⟩
  · intro hd
    simp [middleware_call, gate, hgated, hb, hd]
  · intro m hd
    simp [middleware_call, gate, hgated, hb, hd]
  · intro m hd
    simp [middleware_call, gate, hgated, hb, hd]

/-- Witness for C5: the three decode failures on a gated request with a
well-formed Bearer header. -/
theorem token_failure_taxonomy_witness :
    middleware_call ⟨"/api/upload/", some "Bearer abc"⟩
        (fun _ => DecodeResult.expiredSignature) (fun _ => (0 : Nat)) =
      .error ⟨401, "Token expired", "Your authentication token has expired"⟩
    ∧ middleware_call ⟨"/api/upload/", some "Bearer abc"⟩
        (fun _ => DecodeResult.invalidToken "bad") (fun _ => (0 : Nat)) =
      .error ⟨401, "Invalid token", "bad"⟩
    ∧ middleware_call ⟨"/api/upload/", some "Bearer abc"⟩
        (fun _ => DecodeResult.otherError "boom") (fun _ => (0 : Nat)) =
      .error ⟨401, "Authentication failed", "boom"⟩ :=
  ⟨(token_failure_taxonomy ⟨"/api/upload/", some "Bearer abc"⟩ (by decide) (by decide)
      (fun _ => DecodeResult.expiredSignature) (fun _ => (0 : Nat))).1 rfl,
   (token_failure_taxonomy ⟨"/api/upload/", some "Bearer abc"⟩ (by decide) (by decide)
      (fun _ => DecodeResult.invalidToken "bad") (fun _ => (0 : Nat))).2.1 "bad" rfl,
   (token_failure_taxonomy ⟨"/api/upload/", some "Bearer abc"⟩ (by decide) (by decide)
      (fun _ => DecodeResult.otherError "boom") (fun _ => (0 : Nat))).2.2 "boom" rfl⟩

/-- C10: every request to the health path passes the gate with no
authentication (the path matches the public allow-list by prefix,
conjunct 2) and no identity attached (conjunct 1), and the composed
response is 200 with literal status `healthy`, whatever the
Authorization header and the decode behaviour are (conjunct 3); the
health view is a closed constant that takes no backend input. -/
theorem health_always_ok (auth : Option String) (decode : String → DecodeResult) :
    gate ⟨"/api/health/", auth⟩ decode = .ok none
    ∧ PUBLIC_PATHS.any (fun p => str_startswith "/api/health/" p) = true
    ∧ middleware_call ⟨"/api/health/", auth⟩ decode (fun _ => healthCheckView_get) =
        .ok (.healthOk 200 "healthy" "File upload service is running") := by
  have hp : PUBLIC_PATHS.any (fun p => str_startswith "/api/health/" p) = true := by
    decide
  refine ⟨?_, hp, ?_⟩
  · simp [gate, hp]
  · simp [middleware_call, gate, hp, healthCheckView_get]

/-- C3: when the decoded claims have a missing or empty `oid`, the
attached identity's `user_id` is the empty string (conjunct 1; conjunct
2 shows the gate attaching exactly that identity), the listing then
applies no owner filter and returns every backend entry (conjuncts 3
and 4), and the upload key carries no owner prefix (conjunct 5),
because filter and prefix are applied only to a truthy owner id. -/
theorem empty_oid_unfiltered (c : Claims) (hc : c.oid = none ∨ c.oid = some "") :
    (user_info_of_claims c).user_id = ""
    ∧ (∀ (req : Request) (decode : String → DecodeResult),
        PUBLIC_PATHS.any (fun p => str_startswith req.path p) = false →
        str_startswith (req.authorization.getD "") "Bearer " = true →
        decode (bearer_token (req.authorization.getD "")) = .ok c →
        gate req decode = .ok (some (user_info_of_claims c)))
    ∧ (∀ bl : List Blob, list_blobs (some "") bl = bl.map blob_entry)
    ∧ (∀ acct : String, acct ≠ "" → ∀ bl : List Blob,
        fileListView_get (some (user_info_of_claims c)) (some acct) (.ok bl) =
          .listOk 200 "Files retrieved successfully" (bl.map blob_entry).length
            (bl.map blob_entry))
    ∧ (∀ t u f : String,
        blob_name (some "") t u f = t ++ "_" ++ u ++ "." ++ file_extension f) := by
  have hid : (user_info_of_claims c).user_id = "" := by
    cases hc with
    | inl h => simp [user_info_of_claims, h]
    | inr h => simp [user_info_of_claims, h]
  have hlist : ∀ bl : List Blob, list_blobs (some "") bl = bl.map blob_entry := by
    intro bl
    induction bl with
    | nil => rfl
    | cons b rest ih => simp [list_blobs, pyTruthy, ih]
  refine ⟨hid, ?_, hlist, ?_, ?_⟩
  · intro req decode hg hb hd
    simp [gate, hg, hb, hd]
  · intro acct hacct bl
    simp [fileListView_get, service_init, pyTruthy, bne_iff_ne.mpr hacct,
      list_blobs_call, hid, request_user_id, hlist]
  · intro t u f
    simp [blob_name, pyTruthy]

/-- Witness for C3: claims with no `oid`, a one-blob backend listing of
another owner that is still returned. -/
theorem empty_oid_unfiltered_witness :
    (user_info_of_claims ⟨none, some "a@b", some "A"⟩).user_id = ""
    ∧ list_blobs (some "") [⟨"other/y.txt", 1, none, none, none⟩] =
        [⟨"other/y.txt", 1, none, none, none⟩] := by
  have h := empty_oid_unfiltered ⟨none, some "a@b", some "A"⟩ (Or.inl rfl)
  exact ⟨h.1, h.2.2.1 [⟨"other/y.txt", 1, none, none, none⟩]⟩

/-- The enumeration loop with a truthy owner id keeps exactly the blobs
whose names start with the owner-id-slash string, in enumeration
order: it is the filter of the backend listing. -/
theorem list_blobs_eq_filter (o : String) (ho : o ≠ "") (bl : List Blob) :
    list_blobs (some o) bl =
      (bl.filter (fun b => str_startswith b.name (o ++ "/"))).map blob_entry := by
  induction bl with
  | nil => rfl
  | cons b rest ih =>
    cases h : str_startswith b.name (o ++ "/") with
    | true => simp [list_blobs, pyTruthy, bne_iff_ne.mpr ho, h, ih]
    | false => simp [list_blobs, pyTruthy, bne_iff_ne.mpr ho, h, ih]

/-- C2: with a non-empty owner id `o`, the listing is exactly the
subsequence of the backend enumeration whose names start with
`o ++ "/"` — a filter, hence order-preserving with no re-sorting
(conjunct 1) — and the handler's response carries that sequence with
count equal to its length (conjunct 2), the empty backend listing or an
all-foreign listing giving count 0 with an empty sequence as instances
of the same equations. -/
theorem list_owner_filter (o : String) (ho : o ≠ "") (bl : List Blob)
    (ui : UserInfo) (hui : ui.user_id = o) (acct : String) (hacct : acct ≠ "") :
    list_blobs (some o) bl =
      (bl.filter (fun b => str_startswith b.name (o ++ "/"))).map blob_entry
    ∧ fileListView_get (some ui) (some acct) (.ok bl) =
        .listOk 200 "Files retrieved successfully"
          ((bl.filter (fun b => str_startswith b.name (o ++ "/"))).map blob_entry).length
          ((bl.filter (fun b => str_startswith b.name (o ++ "/"))).map blob_entry) := by
  refine ⟨list_blobs_eq_filter o ho bl, ?_⟩
  simp [fileListView_get, request_user_id, hui, service_init, pyTruthy,
    bne_iff_ne.mpr hacct, list_blobs_call, list_blobs_eq_filter o ho bl]

/-- Witness for C2: owner `user-123` over a mixed two-blob listing keeps
only the matching blob with count 1, and over the empty listing returns
count 0. -/
theorem list_owner_filter_witness :
    fileListView_get (some ⟨"user-123", "", ""⟩) (some "acct")
        (.ok [⟨"user-123/file1.txt", 10, none, none, none⟩,
              ⟨"user-456/file2.txt", 20, none, none, none⟩]) =
      .listOk 200 "Files retrieved successfully" 1
        [⟨"user-123/file1.txt", 10, none, none, none⟩]
    ∧ fileListView_get (some ⟨"user-123", "", ""⟩) (some "acct") (.ok []) =
        .listOk 200 "Files retrieved successfully" 0 [] := by
  have h1 := list_owner_filter "user-123" (by decide)
    [⟨"user-123/file1.txt", 10, none, none, none⟩,
     ⟨"user-456/file2.txt", 20, none, none, none⟩]
    ⟨"user-123", "", ""⟩ rfl "acct" (by decide)
  have h2 := list_owner_filter "user-123" (by decide) []
    ⟨"user-123", "", ""⟩ rfl "acct" (by decide)
  exact ⟨h1.2.trans (by decide), h2.2.trans (by decide)⟩

/-- C6: an upload whose file is strictly larger than `50 * 1024 * 1024`
bytes is rejected with 400 `File too large` and the ceiling restated in
the message, for every configuration and backend value — so the gateway
is never consulted (conjunct 1); a file of exactly `50 * 1024 * 1024`
bytes passes the size check and uploads (boundary inclusive, conjunct
2); a missing file field gives 400 `No file provided` (conjunct 3). -/
theorem upload_size_checks (ui : Option UserInfo) (t u burl uat : String) :
    (∀ (f : UploadedFile) (acct : Option String) (backend : Except PyExc Unit),
        f.size > 50 * 1024 * 1024 →
        fileUploadView_post (some f) ui acct t u burl uat backend =
          .errorResponse 400 "File too large"
            "File size exceeds maximum allowed size of 50.0MB")
    ∧ (∀ (f : UploadedFile) (acct : String), acct ≠ "" →
        f.size = 50 * 1024 * 1024 →
        fileUploadView_post (some f) ui (some acct) t u burl uat (.ok ()) =
          .uploadOk 201 "File uploaded successfully"
            ⟨true, blob_name (some (request_user_id ui)) t u f.name, burl, f.name,
              f.size, f.content_type, uat⟩)
    ∧ (∀ (acct : Option String) (backend : Except PyExc Unit),
        fileUploadView_post none ui acct t u burl uat backend =
          .errorResponse 400 "No file provided"
            "Please include a file in the request with key \"file\"") := by
  refine ⟨?_, ?_, ?_⟩
  · intro f acct backend hsize
    simp [fileUploadView_post, max_size, hsize]
  · intro f acct hacct hsize
    simp [fileUploadView_post, max_size, hsize, service_init, pyTruthy,
      bne_iff_ne.mpr hacct, upload_file]
  · intro acct backend
    rfl

/-- Witness for C6: one byte over the ceiling is rejected, exactly the
ceiling passes. -/
theorem upload_size_checks_witness :
    fileUploadView_post (some ⟨"big.bin", 50 * 1024 * 1024 + 1, "b"⟩) none
        (some "acct") "t0" "id0" "url" "now" (.ok ()) =
      .errorResponse 400 "File too large"
        "File size exceeds maximum allowed size of 50.0MB"
    ∧ fileUploadView_post (some ⟨"ok.bin", 50 * 1024 * 1024, "b"⟩) none
        (some "acct") "t0" "id0" "url" "now" (.ok ()) =
      .uploadOk 201 "File uploaded successfully"
        ⟨true, "anonymous/t0_id0.bin", "url", "ok.bin", 50 * 1024 * 1024, "b", "now"⟩ := by
  have h := upload_size_checks none "t0" "id0" "url" "now"
  refine ⟨h.1 ⟨"big.bin", 50 * 1024 * 1024 + 1, "b"⟩ (some "acct") (.ok ())
    (by decide), ?_⟩
  exact (h.2.1 ⟨"ok.bin", 50 * 1024 * 1024, "b"⟩ "acct" (by decide) rfl).trans
    (by decide)

/-- C7: for a shape-valid upload, a falsy (missing/empty) account
setting makes the constructor's `ValueError` surface as 500
`Configuration error`, whatever the backend would have done (conjunct
1); any backend failure during the upload is wrapped by the gateway
into a generic failure whose message carries the original message and
surfaces as 500 `Upload failed` (conjunct 2); both outcomes are error
responses, which by construction carry no Upload Result data. -/
theorem upload_error_paths (f : UploadedFile) (hf : ¬ f.size > 50 * 1024 * 1024)
    (ui : Option UserInfo) (t u burl uat : String) :
    (∀ acct : Option String, pyTruthy acct = false →
      ∀ backend : Except PyExc Unit,
        fileUploadView_post (some f) ui acct t u burl uat backend =
          .errorResponse 500 "Configuration error"
            "AZURE_STORAGE_ACCOUNT_NAME must be configured")
    ∧ (∀ acct : String, acct ≠ "" → ∀ e : PyExc,
        fileUploadView_post (some f) ui (some acct) t u burl uat (.error e) =
          .errorResponse 500 "Upload failed"
            ("Failed to upload file to Azure Blob Storage: " ++ e.message)) := by
  refine ⟨?_, ?_⟩
  · intro acct hacct backend
    simp [fileUploadView_post, max_size, hf, service_init, hacct,
      upload_exc_response]
  · intro acct hacct e
    simp [fileUploadView_post, max_size, hf, service_init, pyTruthy,
      bne_iff_ne.mpr hacct, upload_file, upload_exc_response]

/-- Witness for C7: a missing account name and a failing backend at a
small file. -/
theorem upload_error_paths_witness :
    fileUploadView_post (some ⟨"a.txt", 3, "ct"⟩) none none "t0" "id0" "url" "now"
        (.ok ()) =
      .errorResponse 500 "Configuration error"
        "AZURE_STORAGE_ACCOUNT_NAME must be configured"
    ∧ fileUploadView_post (some ⟨"a.txt", 3, "ct"⟩) none (some "acct") "t0" "id0"
        "url" "now" (.error (.exception "boom")) =
      .errorResponse 500 "Upload failed"
        "Failed to upload file to Azure Blob Storage: boom" := by
  have h := upload_error_paths ⟨"a.txt", 3, "ct"⟩ (by decide) none "t0" "id0"
    "url" "now"
  exact ⟨h.1 none (by decide) (.ok ()),
    (h.2 "acct" (by decide) (.exception "boom")).trans (by decide)⟩

/-- C9: a request reaching a handler with no attached `user_info` is not
rejected with 401 — neither handler can produce a 401 status at all
(conjuncts 3 and 4) — and both proceed with the literal owner id
`anonymous`: the upload key is built with owner `anonymous` (conjunct
1) and the listing filters by the `anonymous` owner (conjunct 2). -/
theorem anonymous_fallback (t u burl uat : String) (acct : String)
    (hacct : acct ≠ "") :
    (∀ f : UploadedFile, ¬ f.size > 50 * 1024 * 1024 →
        fileUploadView_post (some f) none (some acct) t u burl uat (.ok ()) =
          .uploadOk 201 "File uploaded successfully"
            ⟨true, blob_name (some "anonymous") t u f.name, burl, f.name, f.size,
              f.content_type, uat⟩)
    ∧ (∀ bl : List Blob,
        fileListView_get none (some acct) (.ok bl) =
          .listOk 200 "Files retrieved successfully"
            ((bl.filter (fun b => str_startswith b.name ("anonymous" ++ "/"))).map
              blob_entry).length
            ((bl.filter (fun b => str_startswith b.name ("anonymous" ++ "/"))).map
              blob_entry))
    ∧ (∀ (file : Option UploadedFile) (acct' : Option String)
          (backend : Except PyExc Unit),
        (fileUploadView_post file none acct' t u burl uat backend).statusCode ≠ 401)
    ∧ (∀ (acct' : Option String) (backend : Except PyExc (List Blob)),
        (fileListView_get none acct' backend).statusCode ≠ 401) := by
  refine ⟨?_, ?_, ?_, ?_⟩
  · intro f hsize
    simp [fileUploadView_post, max_size, hsize, service_init, pyTruthy,
      bne_iff_ne.mpr hacct, upload_file, request_user_id]
  · intro bl
    simp [fileListView_get, request_user_id, service_init, pyTruthy,
      bne_iff_ne.mpr hacct, list_blobs_call,
      list_blobs_eq_filter "anonymous" (by decide) bl]
  · intro file acct' backend
    cases file with
    | none => simp [fileUploadView_post, ApiResponse.statusCode]
    | some f =>
      by_cases h : f.size > max_size
      · simp [fileUploadView_post, h, ApiResponse.statusCode]
      · cases hsi : service_init acct' with
        | error e =>
          cases e <;>
            simp [fileUploadView_post, h, hsi, upload_exc_response,
              ApiResponse.statusCode]
        | ok w =>
          cases backend with
          | error e2 =>
            cases e2 <;>
              simp [fileUploadView_post, h, hsi, upload_file,
                upload_exc_response, ApiResponse.statusCode]
          | ok w2 =>
            simp [fileUploadView_post, h, hsi, upload_file,
              ApiResponse.statusCode]
  · intro acct' backend
    cases hsi : service_init acct' with
    | error e =>
      cases e <;>
        simp [fileListView_get, hsi, list_exc_response, ApiResponse.statusCode]
    | ok w =>
      cases backend with
      | error e2 =>
        cases e2 <;>
          simp [fileListView_get, hsi, list_blobs_call, list_exc_response,
            ApiResponse.statusCode]
      | ok bl =>
        simp [fileListView_get, hsi, list_blobs_call, ApiResponse.statusCode]

/-- Witness for C9: a small upload and a one-blob listing with no
identity attached, both succeeding under owner `anonymous`. -/
theorem anonymous_fallback_witness :
    fileUploadView_post (some ⟨"a.txt", 5, "text/plain"⟩) none (some "acct") "t0"
        "id0" "url" "now" (.ok ()) =
      .uploadOk 201 "File uploaded successfully"
        ⟨true, "anonymous/t0_id0.txt", "url", "a.txt", 5, "text/plain", "now"⟩
    ∧ fileListView_get none (some "acct")
        (.ok [⟨"anonymous/t0_id0.txt", 5, none, none, none⟩,
              ⟨"user-123/z.txt", 7, none, none, none⟩]) =
      .listOk 200 "Files retrieved successfully" 1
        [⟨"anonymous/t0_id0.txt", 5, none, none, none⟩] := by
  have h := anonymous_fallback "t0" "id0" "url" "now" "acct" (by decide)
  exact ⟨(h.1 ⟨"a.txt", 5, "text/plain"⟩ (by decide)).trans (by decide),
    (h.2.1 [⟨"anonymous/t0_id0.txt", 5, none, none, none⟩,
            ⟨"user-123/z.txt", 7, none, none, none⟩]).trans (by decide)⟩

end FileUpload
